import Mathlib

/-! Step-run cancellation handler.

A shallow embedding of `StepRunService.StepRunUpdateCancel`
(`api/v1/server/handlers/step-runs/cancel.go`) and the properties of the
cancellation protocol it implements.

The handler talks to three collaborators (the engine repository, the message
queue and the API repository) and sleeps between polls.  The embedding threads
an explicit `World` (a logical clock in milliseconds and the timestamped list
of collaborator calls made so far) through the handler; each collaborator is a
function of the world in which it is called, so its answers may depend on the
time and on everything that happened before.
-/

namespace StepRuns

/-! ## Data model -/

/-- Modelled from the spec: the type `dbsqlc.StepRunStatus` is declared outside
the handler file; the spec describes it as an enumeration containing at least
`PENDING`, `RUNNING`, `SUCCEEDED`, `FAILED` and `CANCELLED`.  It is kept open
here (any name is a status) so that further members are covered as well. -/
abbrev StepRunStatus := String

/-- Modelled from the spec: status constant `dbsqlc.StepRunStatusPENDING`. -/
def StepRunStatusPENDING : StepRunStatus := "PENDING"

/-- Modelled from the spec: status constant `dbsqlc.StepRunStatusRUNNING`. -/
def StepRunStatusRUNNING : StepRunStatus := "RUNNING"

/-- Modelled from the spec: status constant `dbsqlc.StepRunStatusSUCCEEDED`. -/
def StepRunStatusSUCCEEDED : StepRunStatus := "SUCCEEDED"

/-- Modelled from the spec: status constant `dbsqlc.StepRunStatusFAILED`. -/
def StepRunStatusFAILED : StepRunStatus := "FAILED"

/-- Modelled from the spec: status constant `dbsqlc.StepRunStatusCANCELLED`. -/
def StepRunStatusCANCELLED : StepRunStatus := "CANCELLED"

/-- Modelled from the spec: the identifier type `pgtype.UUID` of a step run is
declared outside the handler file; the spec calls it an opaque unique
identifier. -/
abbrev UUID := String

/-- Modelled from the spec: `sqlchelpers.UUIDToStr` is declared outside the
handler file; it renders the identifier as the string the repositories are
addressed with. -/
def UUIDToStr (id : UUID) : String := id

/-- Modelled from the spec: `db.TenantModel` is declared outside the handler
file; the handler only reads its `ID`. -/
structure TenantModel where
  ID : String
deriving DecidableEq, Repr

/-- Modelled from the spec: `repository.GetStepRunFull`, the snapshot of a step
run held by the handler, is declared outside the handler file.  The spec gives
it an id, a tenant id, a status and execution metadata the coordinator does not
look into. -/
structure GetStepRunFull where
  ID : UUID
  TenantId : String
  Status : StepRunStatus
  Metadata : String
deriving DecidableEq, Repr

/-- Modelled from the spec: the engine-facing record returned by
`GetStepRunForEngine` (the record the execution layer needs to address the
worker) is declared outside the handler file. -/
structure EngineStepRun where
  ID : String
  TenantId : String
  Record : String
deriving DecidableEq, Repr

/-- Modelled from the spec: the message built by `tasktypes.StepRunCancelToTask`
is declared outside the handler file; the spec describes the cancellation
command as run identifier, tenant identifier, reason and the
propagate-to-children flag. -/
structure Task where
  StepRunId : String
  TenantId : String
  CancelledReason : String
  PropagateToChildren : Bool
deriving DecidableEq, Repr

/-- Modelled from the spec: `tasktypes.StepRunCancelToTask` is declared outside
the handler file; it addresses the command to the run of the engine record and
carries the reason and the flag it is given. -/
def StepRunCancelToTask (engineStepRun : EngineStepRun) (reason : String)
    (propagateToChildren : Bool) : Task :=
  { StepRunId := engineStepRun.ID
    TenantId := engineStepRun.TenantId
    CancelledReason := reason
    PropagateToChildren := propagateToChildren }

/-- Modelled from the spec: the queue names of package `msgqueue` are declared
outside the handler file; the handler names `JOB_PROCESSING_QUEUE`. -/
inductive Queue where
  | JOB_PROCESSING_QUEUE
  | named (name : String)
deriving DecidableEq, Repr

/-- A Go `error` value: a base error, or an error wrapped by
`fmt.Errorf(text ++ "%w", cause)`. -/
inductive GoError where
  | base (msg : String)
  | wrapped (text : String) (cause : GoError)
deriving DecidableEq, Repr

/-- Modelled from the spec: `gen.APIErrors` and `apierrors.NewAPIErrors` are
declared outside the handler file; the value is represented by the description
it is built from. -/
structure APIErrors where
  Description : String
deriving DecidableEq, Repr

/-- Modelled from the spec: see `APIErrors`. -/
def NewAPIErrors (description : String) : APIErrors := { Description := description }

/-- Modelled from the spec: `gen.StepRun`, the snapshot handed back to the
caller, is declared outside the handler file; it shows the fields of the
snapshot the handler holds. -/
structure StepRun where
  Id : String
  TenantId : String
  Status : StepRunStatus
  Metadata : String
deriving DecidableEq, Repr

/-- Modelled from the spec: `transformers.ToStepRunFull` is declared outside the
handler file; per the spec the caller receives the observed snapshot, so the
transformer copies the snapshot field by field. -/
def ToStepRunFull (stepRun : GetStepRunFull) : StepRun :=
  { Id := UUIDToStr stepRun.ID
    TenantId := stepRun.TenantId
    Status := stepRun.Status
    Metadata := stepRun.Metadata }

/-- The two response objects the handler builds. -/
inductive Response where
  | StepRunUpdateCancel400JSONResponse (errors : APIErrors)
  | StepRunUpdateCancel200JSONResponse (stepRun : StepRun)
deriving DecidableEq, Repr

/-! ## The world the handler runs in -/

/-- A call made by the handler to one of its collaborators, with the arguments
of the call (the request context argument is left out). -/
inductive Event where
  | GetStepRunForEngine (tenantId : String) (stepRunId : String)
  | AddMessage (queue : Queue) (task : Task)
  | GetStepRunById (stepRunId : String)
deriving DecidableEq, Repr

/-- The state threaded through the handler: a logical clock in milliseconds,
advanced only by `time.Sleep`, and the calls made so far, each stamped with the
clock value at which it was made. -/
structure World where
  clock : Nat
  trace : List (Nat × Event)
deriving DecidableEq, Repr

/-- Append a collaborator call, stamped with the current clock. -/
def World.record (w : World) (e : Event) : World :=
  { w with trace := w.trace ++ [(w.clock, e)] }

/-- The effect of `time.Sleep(ms * time.Millisecond)`. -/
def World.sleep (w : World) (ms : Nat) : World :=
  { w with clock := w.clock + ms }

/-- The collaborators reachable through `t.config`.  Each answer is a function
of the world at the moment of the call and of the arguments.  `AddMessage`
answers `none` for a nil error. -/
structure Config where
  GetStepRunForEngine : World → String → String → Except GoError EngineStepRun
  AddMessage : World → Queue → Task → Option GoError
  GetStepRunById : World → String → Except GoError GetStepRunFull

/-! ## The handler -/

/-- The loop `for i := 0; i < 5; i++ { ... }` of the handler, by recursion on
the number of iterations left (`5 - i`).  `stepRun` is the snapshot in the
handler variable `stepRun`; it is replaced only on the `break` path. -/
def pollLoop (cfg : Config) (stepRun : GetStepRunFull) :
    Nat → World → World × Except GoError GetStepRunFull
  | 0, w => (w, .ok stepRun)
  | n + 1, w =>
    let w1 := w.record (.GetStepRunById (UUIDToStr stepRun.ID))
    match cfg.GetStepRunById w (UUIDToStr stepRun.ID) with
    | .error err => (w1, .error (.wrapped "could not get step run: " err))
    | .ok newStepRun =>
      if newStepRun.Status ≠ stepRun.Status then
        (w1, .ok newStepRun)
      else
        pollLoop cfg stepRun n (w1.sleep 100)

/-- The handler `StepRunUpdateCancel`.  `tenant` and `stepRun` are the values
the handler takes out of the request context.  The result is the final world
and the Go return pair: `.ok r` for `(r, nil)` and `.error e` for `(nil, e)`. -/
def StepRunUpdateCancel (cfg : Config) (tenant : TenantModel) (stepRun : GetStepRunFull)
    (w : World) : World × Except GoError Response :=
  let status := stepRun.Status
  let canCancel := status == StepRunStatusRUNNING || status == StepRunStatusPENDING
  if !canCancel then
    (w, .ok (.StepRunUpdateCancel400JSONResponse
      (NewAPIErrors "step run is not in a running or pending state")))
  else
    let w1 := w.record (.GetStepRunForEngine tenant.ID (UUIDToStr stepRun.ID))
    match cfg.GetStepRunForEngine w tenant.ID (UUIDToStr stepRun.ID) with
    | .error err => (w1, .error (.wrapped "could not get step run for engine: " err))
    | .ok engineStepRun =>
      let reason := "CANCELLED_BY_USER"
      let task := StepRunCancelToTask engineStepRun reason true
      let w2 := w1.record (.AddMessage .JOB_PROCESSING_QUEUE task)
      match cfg.AddMessage w1 .JOB_PROCESSING_QUEUE task with
      | some err => (w2, .error (.wrapped "could not add step queued task to task queue: " err))
      | none =>
        match pollLoop cfg stepRun 5 w2 with
        | (w3, .error err) => (w3, .error err)
        | (w3, .ok finalStepRun) =>
          (w3, .ok (.StepRunUpdateCancel200JSONResponse (ToStepRunFull finalStepRun)))

/-! ## Observations on a world -/

/-- The clock values at which `GetStepRunForEngine` was called. -/
def World.engineFetches (w : World) : List Nat :=
  w.trace.filterMap fun p =>
    match p.2 with
    | .GetStepRunForEngine _ _ => some p.1
    | _ => none

/-- The messages published with `AddMessage`, in order, with their queue. -/
def World.published (w : World) : List (Queue × Task) :=
  w.trace.filterMap fun p =>
    match p.2 with
    | .AddMessage q t => some (q, t)
    | _ => none

/-- The clock values at which `GetStepRunById` was called (the poll reads). -/
def World.reads (w : World) : List Nat :=
  w.trace.filterMap fun p =>
    match p.2 with
    | .GetStepRunById _ => some p.1
    | _ => none

/-- The world in which the poll numbered `k` (counting from 0) is made when the
loop starts in `w` and every earlier poll showed the baseline status: each
earlier iteration made one read and slept 100 ms. -/
def pollWorld (stepRunId : String) : Nat → World → World
  | 0, w => w
  | k + 1, w => pollWorld stepRunId k ((w.record (.GetStepRunById stepRunId)).sleep 100)

/-- The world at the start of the poll loop: the engine fetch and the publish
have been made, both at the clock value of `w`. -/
def afterDispatch (tenant : TenantModel) (stepRun : GetStepRunFull)
    (engineStepRun : EngineStepRun) (w : World) : World :=
  (w.record (.GetStepRunForEngine tenant.ID (UUIDToStr stepRun.ID))).record
    (.AddMessage .JOB_PROCESSING_QUEUE (StepRunCancelToTask engineStepRun "CANCELLED_BY_USER" true))

/-- The empty world: clock 0, no call made. -/
def World.init : World := { clock := 0, trace := [] }

/-- The answer of the API repository to the poll numbered `j` (counting from
0) of a call started in `w`, when every earlier poll showed the baseline
status. -/
def pollRead (cfg : Config) (tenant : TenantModel) (stepRun : GetStepRunFull)
    (engineStepRun : EngineStepRun) (w : World) (j : Nat) : Except GoError GetStepRunFull :=
  cfg.GetStepRunById (pollWorld (UUIDToStr stepRun.ID) j (afterDispatch tenant stepRun engineStepRun w))
    (UUIDToStr stepRun.ID)

/-- The clock values of the first `n` polls of a loop started at clock `t`. -/
def pollTimes (t n : Nat) : List Nat := (List.range n).map fun j => t + 100 * j

/-! ## Scenarios -/

/-- A configuration whose collaborators follow a script: the engine fetch and
the publish give fixed answers, and the store answers a poll as a function of
the clock value at which it is asked. -/
def scripted (fetch : Except GoError EngineStepRun) (publish : Option GoError)
    (store : Nat → Except GoError GetStepRunFull) : Config :=
  { GetStepRunForEngine := fun _ _ _ => fetch
    AddMessage := fun _ _ _ => publish
    GetStepRunById := fun w _ => store w.clock }

/-- Tenant `t1` of the scenarios. -/
def tenantT1 : TenantModel := { ID := "t1" }

/-- Run `r1`: status `RUNNING`. -/
def runR1 : GetStepRunFull :=
  { ID := "r1", TenantId := "t1", Status := StepRunStatusRUNNING, Metadata := "m0" }

/-- Run `r2`: status `SUCCEEDED`. -/
def runR2 : GetStepRunFull :=
  { ID := "r2", TenantId := "t1", Status := StepRunStatusSUCCEEDED, Metadata := "m0" }

/-- Run `r3`: status `PENDING`. -/
def runR3 : GetStepRunFull :=
  { ID := "r3", TenantId := "t1", Status := StepRunStatusPENDING, Metadata := "m0" }

/-- Run `r4`: status `FAILED`. -/
def runR4 : GetStepRunFull :=
  { ID := "r4", TenantId := "t1", Status := StepRunStatusFAILED, Metadata := "m0" }

/-- The engine record of a run. -/
def engineOf (stepRun : GetStepRunFull) : EngineStepRun :=
  { ID := stepRun.ID, TenantId := stepRun.TenantId, Record := "engine" }

/-- A store error. -/
def storeDown : GoError := .base "store unavailable"

/-- A queue error. -/
def queueDown : GoError := .base "queue unavailable"

/-- The store of a run that never leaves its status. -/
def storeUnchanged (stepRun : GetStepRunFull) : Nat → Except GoError GetStepRunFull :=
  fun _ => .ok stepRun

/-- The store of a run whose status becomes `status` at clock value `t`. -/
def storeChangesAt (stepRun : GetStepRunFull) (t : Nat) (status : StepRunStatus) :
    Nat → Except GoError GetStepRunFull :=
  fun now => .ok (if now < t then stepRun else { stepRun with Status := status })

/-- The store of a run that keeps its status while its metadata is rewritten. -/
def storeTouched (stepRun : GetStepRunFull) : Nat → Except GoError GetStepRunFull :=
  fun _ => .ok { stepRun with Metadata := "m1" }

/-- The store of a run that keeps its status and fails from clock value `t` on. -/
def storeFailsAt (stepRun : GetStepRunFull) (t : Nat) : Nat → Except GoError GetStepRunFull :=
  fun now => if now < t then .ok stepRun else .error storeDown

/-- The store of a run that shows `status` before clock value `t` and fails
from then on. -/
def storeChangedThenFails (stepRun : GetStepRunFull) (t : Nat) (status : StepRunStatus) :
    Nat → Except GoError GetStepRunFull :=
  fun now => if now < t then .ok { stepRun with Status := status } else .error storeDown

/-- Run `r1` is shown as `CANCELLED` by the first poll; the store is down from
100 ms on. -/
def cfgChangedThenFails : Config :=
  scripted (.ok (engineOf runR1)) none (storeChangedThenFails runR1 100 StepRunStatusCANCELLED)

/-- Scenario `r1`: the store shows `r1` as `CANCELLED` from 200 ms on. -/
def cfgR1 : Config :=
  scripted (.ok (engineOf runR1)) none (storeChangesAt runR1 200 StepRunStatusCANCELLED)

/-- Scenario `r3`: the store never shows a transition of `r3`. -/
def cfgR3 : Config := scripted (.ok (engineOf runR3)) none (storeUnchanged runR3)

/-- Run `r1` stays `RUNNING` while its metadata is rewritten. -/
def cfgTouched : Config := scripted (.ok (engineOf runR1)) none (storeTouched runR1)

/-- Run `r1` stays `RUNNING` and the store fails from 200 ms on. -/
def cfgStoreFails : Config := scripted (.ok (engineOf runR1)) none (storeFailsAt runR1 200)

/-! ## Lemmas on worlds -/

@[simp]
theorem record_clock (w : World) (e : Event) : (w.record e).clock = w.clock := rfl

@[simp]
theorem sleep_clock (w : World) (ms : Nat) : (w.sleep ms).clock = w.clock + ms := rfl

@[simp]
theorem sleep_trace (w : World) (ms : Nat) : (w.sleep ms).trace = w.trace := rfl

@[simp]
theorem record_trace (w : World) (e : Event) :
    (w.record e).trace = w.trace ++ [(w.clock, e)] := rfl

@[simp]
theorem reads_sleep (w : World) (ms : Nat) : (w.sleep ms).reads = w.reads := rfl

@[simp]
theorem published_sleep (w : World) (ms : Nat) : (w.sleep ms).published = w.published := rfl

@[simp]
theorem engineFetches_sleep (w : World) (ms : Nat) :
    (w.sleep ms).engineFetches = w.engineFetches := rfl

@[simp]
theorem reads_record_read (w : World) (id : String) :
    (w.record (.GetStepRunById id)).reads = w.reads ++ [w.clock] := by
  simp [World.reads, World.record, List.filterMap_append]

@[simp]
theorem reads_record_fetch (w : World) (a b : String) :
    (w.record (.GetStepRunForEngine a b)).reads = w.reads := by
  simp [World.reads, World.record, List.filterMap_append]

@[simp]
theorem reads_record_publish (w : World) (q : Queue) (t : Task) :
    (w.record (.AddMessage q t)).reads = w.reads := by
  simp [World.reads, World.record, List.filterMap_append]

@[simp]
theorem published_record_read (w : World) (id : String) :
    (w.record (.GetStepRunById id)).published = w.published := by
  simp [World.published, World.record, List.filterMap_append]

@[simp]
theorem published_record_fetch (w : World) (a b : String) :
    (w.record (.GetStepRunForEngine a b)).published = w.published := by
  simp [World.published, World.record, List.filterMap_append]

@[simp]
theorem published_record_publish (w : World) (q : Queue) (t : Task) :
    (w.record (.AddMessage q t)).published = w.published ++ [(q, t)] := by
  simp [World.published, World.record, List.filterMap_append]

@[simp]
theorem engineFetches_record_read (w : World) (id : String) :
    (w.record (.GetStepRunById id)).engineFetches = w.engineFetches := by
  simp [World.engineFetches, World.record, List.filterMap_append]

@[simp]
theorem engineFetches_record_fetch (w : World) (a b : String) :
    (w.record (.GetStepRunForEngine a b)).engineFetches = w.engineFetches ++ [w.clock] := by
  simp [World.engineFetches, World.record, List.filterMap_append]

@[simp]
theorem engineFetches_record_publish (w : World) (q : Queue) (t : Task) :
    (w.record (.AddMessage q t)).engineFetches = w.engineFetches := by
  simp [World.engineFetches, World.record, List.filterMap_append]

theorem pollTimes_succ (t n : Nat) :
    pollTimes t (n + 1) = t :: pollTimes (t + 100) n := by
  simp only [pollTimes, List.range_succ_eq_map, List.map_cons, List.map_map]
  refine congrArg₂ _ (by simp) (List.map_congr_left fun j _ => ?_)
  simp only [Function.comp_apply]
  omega

theorem pollTimes_length (t n : Nat) : (pollTimes t n).length = n := by
  simp [pollTimes]

theorem pollWorld_clock (id : String) (k : Nat) (w : World) :
    (pollWorld id k w).clock = w.clock + 100 * k := by
  induction k generalizing w with
  | zero => simp [pollWorld]
  | succ k ih => simp [pollWorld, ih]; omega

theorem pollWorld_reads (id : String) (k : Nat) (w : World) :
    (pollWorld id k w).reads = w.reads ++ pollTimes w.clock k := by
  induction k generalizing w with
  | zero => simp [pollWorld, pollTimes]
  | succ k ih => simp [pollWorld, ih, pollTimes_succ]

theorem pollWorld_published (id : String) (k : Nat) (w : World) :
    (pollWorld id k w).published = w.published := by
  induction k generalizing w with
  | zero => simp [pollWorld]
  | succ k ih => simp [pollWorld, ih]

theorem pollWorld_engineFetches (id : String) (k : Nat) (w : World) :
    (pollWorld id k w).engineFetches = w.engineFetches := by
  induction k generalizing w with
  | zero => simp [pollWorld]
  | succ k ih => simp [pollWorld, ih]

/-- The reads made up to and including the poll numbered `k`. -/
theorem reads_upto (id : String) (k : Nat) (w : World) :
    ((pollWorld id k w).record (.GetStepRunById id)).reads = w.reads ++ pollTimes w.clock (k + 1) := by
  induction k generalizing w with
  | zero => simp [pollWorld, pollTimes, List.range_succ]
  | succ k ih =>
    rw [pollWorld, ih, pollTimes_succ w.clock (k + 1)]
    simp

/-! ## Lemmas on the poll loop -/

/-- Every poll shows the baseline status: the loop runs to its bound and leaves
the handler variable untouched. -/
theorem pollLoop_unchanged (cfg : Config) (stepRun : GetStepRunFull) (n : Nat) (w : World)
    (h : ∀ j, j < n → ∃ s, cfg.GetStepRunById (pollWorld (UUIDToStr stepRun.ID) j w)
      (UUIDToStr stepRun.ID) = .ok s ∧ s.Status = stepRun.Status) :
    pollLoop cfg stepRun n w = (pollWorld (UUIDToStr stepRun.ID) n w, .ok stepRun) := by
  induction n generalizing w with
  | zero => rfl
  | succ n ih =>
    obtain ⟨s, hs, hst⟩ := h 0 (Nat.succ_pos n)
    simp only [pollWorld] at hs
    simp only [pollLoop, hs, hst, ne_eq, not_true_eq_false, if_false, pollWorld]
    exact ih _ fun j hj => by simpa [pollWorld] using h (j + 1) (Nat.succ_lt_succ hj)

/-- The poll numbered `k` is the first to show another status: the loop breaks
there with that snapshot. -/
theorem pollLoop_changed (cfg : Config) (stepRun : GetStepRunFull) (n k : Nat) (w : World)
    (hk : k < n)
    (h : ∀ j, j < k → ∃ s, cfg.GetStepRunById (pollWorld (UUIDToStr stepRun.ID) j w)
      (UUIDToStr stepRun.ID) = .ok s ∧ s.Status = stepRun.Status)
    (s0 : GetStepRunFull)
    (hr : cfg.GetStepRunById (pollWorld (UUIDToStr stepRun.ID) k w) (UUIDToStr stepRun.ID) = .ok s0)
    (hd : s0.Status ≠ stepRun.Status) :
    pollLoop cfg stepRun n w =
      ((pollWorld (UUIDToStr stepRun.ID) k w).record (.GetStepRunById (UUIDToStr stepRun.ID)),
        .ok s0) := by
  induction k generalizing w n with
  | zero =>
    obtain ⟨m, rfl⟩ : ∃ m, n = m + 1 := ⟨n - 1, by omega⟩
    simp only [pollWorld] at hr
    simp [pollLoop, hr, hd, pollWorld]
  | succ k ih =>
    obtain ⟨m, rfl⟩ : ∃ m, n = m + 1 := ⟨n - 1, by omega⟩
    obtain ⟨s, hs, hst⟩ := h 0 (Nat.succ_pos k)
    simp only [pollWorld] at hs
    simp only [pollLoop, hs, hst, ne_eq, not_true_eq_false, if_false, pollWorld]
    exact ih m _ (by omega) (fun j hj => by simpa [pollWorld] using h (j + 1) (Nat.succ_lt_succ hj))
      (by simpa [pollWorld] using hr)

/-- The poll numbered `k` fails after polls that all showed the baseline
status: the loop returns the wrapped error there. -/
theorem pollLoop_failed (cfg : Config) (stepRun : GetStepRunFull) (n k : Nat) (w : World)
    (hk : k < n)
    (h : ∀ j, j < k → ∃ s, cfg.GetStepRunById (pollWorld (UUIDToStr stepRun.ID) j w)
      (UUIDToStr stepRun.ID) = .ok s ∧ s.Status = stepRun.Status)
    (err : GoError)
    (hr : cfg.GetStepRunById (pollWorld (UUIDToStr stepRun.ID) k w) (UUIDToStr stepRun.ID)
      = .error err) :
    pollLoop cfg stepRun n w =
      ((pollWorld (UUIDToStr stepRun.ID) k w).record (.GetStepRunById (UUIDToStr stepRun.ID)),
        .error (.wrapped "could not get step run: " err)) := by
  induction k generalizing w n with
  | zero =>
    obtain ⟨m, rfl⟩ : ∃ m, n = m + 1 := ⟨n - 1, by omega⟩
    simp only [pollWorld] at hr
    simp [pollLoop, hr, pollWorld]
  | succ k ih =>
    obtain ⟨m, rfl⟩ : ∃ m, n = m + 1 := ⟨n - 1, by omega⟩
    obtain ⟨s, hs, hst⟩ := h 0 (Nat.succ_pos k)
    simp only [pollWorld] at hs
    simp only [pollLoop, hs, hst, ne_eq, not_true_eq_false, if_false, pollWorld]
    exact ih m _ (by omega) (fun j hj => by simpa [pollWorld] using h (j + 1) (Nat.succ_lt_succ hj))
      (by simpa [pollWorld] using hr)

/-- The loop publishes nothing. -/
theorem pollLoop_published (cfg : Config) (stepRun : GetStepRunFull) (n : Nat) (w : World) :
    (pollLoop cfg stepRun n w).1.published = w.published := by
  induction n generalizing w with
  | zero => rfl
  | succ n ih =>
    simp only [pollLoop]
    split
    · simp
    · split
      · simp
      · rw [ih]; simp

/-- The loop does not call the engine repository. -/
theorem pollLoop_engineFetches (cfg : Config) (stepRun : GetStepRunFull) (n : Nat) (w : World) :
    (pollLoop cfg stepRun n w).1.engineFetches = w.engineFetches := by
  induction n generalizing w with
  | zero => rfl
  | succ n ih =>
    simp only [pollLoop]
    split
    · simp
    · split
      · simp
      · rw [ih]; simp

/-! ## Lemmas on the handler -/

/-- A status other than `RUNNING` and `PENDING` takes the rejection branch. -/
theorem handler_rejects (cfg : Config) (tenant : TenantModel) (stepRun : GetStepRunFull)
    (w : World) (h1 : stepRun.Status ≠ StepRunStatusRUNNING)
    (h2 : stepRun.Status ≠ StepRunStatusPENDING) :
    StepRunUpdateCancel cfg tenant stepRun w =
      (w, .ok (.StepRunUpdateCancel400JSONResponse
        (NewAPIErrors "step run is not in a running or pending state"))) := by
  simp [StepRunUpdateCancel, h1, h2]

/-- A failed engine fetch ends the handler after that one call. -/
theorem handler_fetch_failed (cfg : Config) (tenant : TenantModel) (stepRun : GetStepRunFull)
    (w : World) (err : GoError)
    (hs : stepRun.Status = StepRunStatusRUNNING ∨ stepRun.Status = StepRunStatusPENDING)
    (hf : cfg.GetStepRunForEngine w tenant.ID (UUIDToStr stepRun.ID) = .error err) :
    StepRunUpdateCancel cfg tenant stepRun w =
      (w.record (.GetStepRunForEngine tenant.ID (UUIDToStr stepRun.ID)),
        .error (.wrapped "could not get step run for engine: " err)) := by
  rcases hs with hs | hs <;> simp [StepRunUpdateCancel, hs, hf]

/-- A failed publish ends the handler after the fetch and that one publish. -/
theorem handler_publish_failed (cfg : Config) (tenant : TenantModel) (stepRun : GetStepRunFull)
    (w : World) (engineStepRun : EngineStepRun) (err : GoError)
    (hs : stepRun.Status = StepRunStatusRUNNING ∨ stepRun.Status = StepRunStatusPENDING)
    (hf : cfg.GetStepRunForEngine w tenant.ID (UUIDToStr stepRun.ID) = .ok engineStepRun)
    (hp : cfg.AddMessage (w.record (.GetStepRunForEngine tenant.ID (UUIDToStr stepRun.ID)))
      .JOB_PROCESSING_QUEUE (StepRunCancelToTask engineStepRun "CANCELLED_BY_USER" true)
      = some err) :
    StepRunUpdateCancel cfg tenant stepRun w =
      (afterDispatch tenant stepRun engineStepRun w,
        .error (.wrapped "could not add step queued task to task queue: " err)) := by
  rcases hs with hs | hs <;> simp [StepRunUpdateCancel, hs, hf, hp, afterDispatch]

/-- After a successful fetch and publish the handler returns what the poll loop
leaves, the snapshot being handed to the transformer. -/
theorem handler_polls (cfg : Config) (tenant : TenantModel) (stepRun : GetStepRunFull)
    (w : World) (engineStepRun : EngineStepRun)
    (hs : stepRun.Status = StepRunStatusRUNNING ∨ stepRun.Status = StepRunStatusPENDING)
    (hf : cfg.GetStepRunForEngine w tenant.ID (UUIDToStr stepRun.ID) = .ok engineStepRun)
    (hp : cfg.AddMessage (w.record (.GetStepRunForEngine tenant.ID (UUIDToStr stepRun.ID)))
      .JOB_PROCESSING_QUEUE (StepRunCancelToTask engineStepRun "CANCELLED_BY_USER" true)
      = none) :
    StepRunUpdateCancel cfg tenant stepRun w =
      ((pollLoop cfg stepRun 5 (afterDispatch tenant stepRun engineStepRun w)).1,
        (pollLoop cfg stepRun 5 (afterDispatch tenant stepRun engineStepRun w)).2.map
          fun s => .StepRunUpdateCancel200JSONResponse (ToStepRunFull s)) := by
  have key : StepRunUpdateCancel cfg tenant stepRun w =
      match pollLoop cfg stepRun 5 (afterDispatch tenant stepRun engineStepRun w) with
      | (w3, .error e) => (w3, .error e)
      | (w3, .ok finalStepRun) =>
        (w3, .ok (.StepRunUpdateCancel200JSONResponse (ToStepRunFull finalStepRun))) := by
    rcases hs with hs | hs <;> simp [StepRunUpdateCancel, hs, hf, hp, afterDispatch]
  rw [key]
  rcases pollLoop cfg stepRun 5 (afterDispatch tenant stepRun engineStepRun w) with ⟨w3, e | s⟩ <;>
    rfl

theorem afterDispatch_clock (tenant : TenantModel) (stepRun : GetStepRunFull)
    (engineStepRun : EngineStepRun) (w : World) :
    (afterDispatch tenant stepRun engineStepRun w).clock = w.clock := rfl

theorem afterDispatch_reads (tenant : TenantModel) (stepRun : GetStepRunFull)
    (engineStepRun : EngineStepRun) (w : World) :
    (afterDispatch tenant stepRun engineStepRun w).reads = w.reads := by
  simp [afterDispatch]

theorem afterDispatch_published (tenant : TenantModel) (stepRun : GetStepRunFull)
    (engineStepRun : EngineStepRun) (w : World) :
    (afterDispatch tenant stepRun engineStepRun w).published = w.published ++
      [(Queue.JOB_PROCESSING_QUEUE, StepRunCancelToTask engineStepRun "CANCELLED_BY_USER" true)] := by
  simp [afterDispatch]

theorem afterDispatch_engineFetches (tenant : TenantModel) (stepRun : GetStepRunFull)
    (engineStepRun : EngineStepRun) (w : World) :
    (afterDispatch tenant stepRun engineStepRun w).engineFetches = w.engineFetches ++ [w.clock] := by
  simp [afterDispatch]

/-! ## Rejection of runs that cannot be cancelled -/

/-- Claim C1.  A run whose status is `SUCCEEDED`, `FAILED` or `CANCELLED` gets
the 400 rejection with a nil Go error, and the handler leaves the world as it
found it: no engine fetch, no publish and no poll read is made. -/
theorem terminal_run_rejected_without_calls (cfg : Config) (tenant : TenantModel)
    (stepRun : GetStepRunFull) (w : World)
    (h : stepRun.Status = StepRunStatusSUCCEEDED ∨ stepRun.Status = StepRunStatusFAILED ∨
      stepRun.Status = StepRunStatusCANCELLED) :
    (StepRunUpdateCancel cfg tenant stepRun w).2 =
        .ok (.StepRunUpdateCancel400JSONResponse
          (NewAPIErrors "step run is not in a running or pending state")) ∧
      (StepRunUpdateCancel cfg tenant stepRun w).1 = w ∧
      (StepRunUpdateCancel cfg tenant stepRun w).1.engineFetches = w.engineFetches ∧
      (StepRunUpdateCancel cfg tenant stepRun w).1.published = w.published ∧
      (StepRunUpdateCancel cfg tenant stepRun w).1.reads = w.reads := by
  have h1 : stepRun.Status ≠ StepRunStatusRUNNING := by
    rcases h with h | h | h <;> rw [h] <;> decide
  have h2 : stepRun.Status ≠ StepRunStatusPENDING := by
    rcases h with h | h | h <;> rw [h] <;> decide
  rw [handler_rejects cfg tenant stepRun w h1 h2]
  exact ⟨rfl, rfl, rfl, rfl, rfl⟩

/-- Scenario `r2`: a `SUCCEEDED` run is rejected and nothing is published. -/
theorem terminal_run_rejected_without_calls_witness :
    (runR2.Status = StepRunStatusSUCCEEDED ∨ runR2.Status = StepRunStatusFAILED ∨
      runR2.Status = StepRunStatusCANCELLED) ∧
    (StepRunUpdateCancel (scripted (.ok (engineOf runR2)) none (storeUnchanged runR2))
        tenantT1 runR2 World.init).2 =
      .ok (.StepRunUpdateCancel400JSONResponse
        (NewAPIErrors "step run is not in a running or pending state")) ∧
    (StepRunUpdateCancel (scripted (.ok (engineOf runR2)) none (storeUnchanged runR2))
        tenantT1 runR2 World.init).1.published = [] :=
  have h := terminal_run_rejected_without_calls
    (scripted (.ok (engineOf runR2)) none (storeUnchanged runR2)) tenantT1 runR2 World.init
    (Or.inl rfl)
  ⟨Or.inl rfl, h.1, h.2.2.2.1⟩

/-- Claim C9, as stated, fails.  A `SUCCEEDED` run and a `FAILED` run get the
same rejection, so the rejection does not tell the status of the run. -/
theorem rejection_same_for_succeeded_and_failed :
    runR2.Status = StepRunStatusSUCCEEDED ∧ runR4.Status = StepRunStatusFAILED ∧
    runR2.Status ≠ runR4.Status ∧
    (StepRunUpdateCancel (scripted (.ok (engineOf runR2)) none (storeUnchanged runR2))
        tenantT1 runR2 World.init).2 =
      (StepRunUpdateCancel (scripted (.ok (engineOf runR4)) none (storeUnchanged runR4))
        tenantT1 runR4 World.init).2 :=
  ⟨rfl, rfl, by decide, rfl⟩

/-- Claim C9, amended.  The rejection carries the fixed description
"step run is not in a running or pending state": any two runs that are neither
`RUNNING` nor `PENDING` get this same rejection, whatever their statuses. -/
theorem rejection_has_fixed_description (cfg cfg2 : Config) (tenant tenant2 : TenantModel)
    (stepRun stepRun2 : GetStepRunFull) (w w2 : World)
    (h1 : stepRun.Status ≠ StepRunStatusRUNNING ∧ stepRun.Status ≠ StepRunStatusPENDING)
    (h2 : stepRun2.Status ≠ StepRunStatusRUNNING ∧ stepRun2.Status ≠ StepRunStatusPENDING) :
    (StepRunUpdateCancel cfg tenant stepRun w).2 =
        .ok (.StepRunUpdateCancel400JSONResponse
          { Description := "step run is not in a running or pending state" }) ∧
      (StepRunUpdateCancel cfg2 tenant2 stepRun2 w2).2 =
        (StepRunUpdateCancel cfg tenant stepRun w).2 := by
  rw [handler_rejects cfg tenant stepRun w h1.1 h1.2,
    handler_rejects cfg2 tenant2 stepRun2 w2 h2.1 h2.2]
  exact ⟨rfl, rfl⟩

/-- The rejections of the `SUCCEEDED` run `r2` and the `FAILED` run `r4`. -/
theorem rejection_has_fixed_description_witness :
    (runR2.Status ≠ StepRunStatusRUNNING ∧ runR2.Status ≠ StepRunStatusPENDING) ∧
    (runR4.Status ≠ StepRunStatusRUNNING ∧ runR4.Status ≠ StepRunStatusPENDING) ∧
    (StepRunUpdateCancel (scripted (.ok (engineOf runR4)) none (storeUnchanged runR4))
        tenantT1 runR4 World.init).2 =
      (StepRunUpdateCancel (scripted (.ok (engineOf runR2)) none (storeUnchanged runR2))
        tenantT1 runR2 World.init).2 :=
  ⟨by decide, by decide,
    (rejection_has_fixed_description
      (scripted (.ok (engineOf runR2)) none (storeUnchanged runR2))
      (scripted (.ok (engineOf runR4)) none (storeUnchanged runR4))
      tenantT1 tenantT1 runR2 runR4 World.init World.init (by decide) (by decide)).2⟩

/-! ## Dispatch -/

/-- Claim C7.  When the engine fetch fails for a `RUNNING` or `PENDING` run the
handler returns the fetch error wrapped in "could not get step run for engine: ",
having called the engine repository once, published nothing and polled
nothing. -/
theorem fetch_failure_surfaced (cfg : Config) (tenant : TenantModel)
    (stepRun : GetStepRunFull) (w : World) (err : GoError)
    (hs : stepRun.Status = StepRunStatusRUNNING ∨ stepRun.Status = StepRunStatusPENDING)
    (hf : cfg.GetStepRunForEngine w tenant.ID (UUIDToStr stepRun.ID) = .error err) :
    (StepRunUpdateCancel cfg tenant stepRun w).2 =
        .error (.wrapped "could not get step run for engine: " err) ∧
      (StepRunUpdateCancel cfg tenant stepRun w).1.engineFetches =
        w.engineFetches ++ [w.clock] ∧
      (StepRunUpdateCancel cfg tenant stepRun w).1.published = w.published ∧
      (StepRunUpdateCancel cfg tenant stepRun w).1.reads = w.reads := by
  rw [handler_fetch_failed cfg tenant stepRun w err hs hf]
  simp

/-- Run `r1` with the engine repository down. -/
theorem fetch_failure_surfaced_witness :
    (runR1.Status = StepRunStatusRUNNING ∨ runR1.Status = StepRunStatusPENDING) ∧
    (StepRunUpdateCancel (scripted (.error storeDown) none (storeUnchanged runR1))
        tenantT1 runR1 World.init).2 =
      .error (.wrapped "could not get step run for engine: " storeDown) ∧
    (StepRunUpdateCancel (scripted (.error storeDown) none (storeUnchanged runR1))
        tenantT1 runR1 World.init).1.engineFetches = [0] ∧
    (StepRunUpdateCancel (scripted (.error storeDown) none (storeUnchanged runR1))
        tenantT1 runR1 World.init).1.published = [] ∧
    (StepRunUpdateCancel (scripted (.error storeDown) none (storeUnchanged runR1))
        tenantT1 runR1 World.init).1.reads = [] :=
  ⟨Or.inl rfl, fetch_failure_surfaced (scripted (.error storeDown) none (storeUnchanged runR1))
    tenantT1 runR1 World.init storeDown (Or.inl rfl) rfl⟩

/-- Claim C6.  When the publish fails for a `RUNNING` or `PENDING` run the
handler returns the publish error wrapped in
"could not add step queued task to task queue: " (never a response), having
called `AddMessage` once and made no poll read. -/
theorem publish_failure_surfaced (cfg : Config) (tenant : TenantModel)
    (stepRun : GetStepRunFull) (w : World) (engineStepRun : EngineStepRun) (err : GoError)
    (hs : stepRun.Status = StepRunStatusRUNNING ∨ stepRun.Status = StepRunStatusPENDING)
    (hf : cfg.GetStepRunForEngine w tenant.ID (UUIDToStr stepRun.ID) = .ok engineStepRun)
    (hp : cfg.AddMessage (w.record (.GetStepRunForEngine tenant.ID (UUIDToStr stepRun.ID)))
      .JOB_PROCESSING_QUEUE (StepRunCancelToTask engineStepRun "CANCELLED_BY_USER" true)
      = some err) :
    (StepRunUpdateCancel cfg tenant stepRun w).2 =
        .error (.wrapped "could not add step queued task to task queue: " err) ∧
      (StepRunUpdateCancel cfg tenant stepRun w).1.published = w.published ++
        [(Queue.JOB_PROCESSING_QUEUE,
          StepRunCancelToTask engineStepRun "CANCELLED_BY_USER" true)] ∧
      (StepRunUpdateCancel cfg tenant stepRun w).1.reads = w.reads := by
  rw [handler_publish_failed cfg tenant stepRun w engineStepRun err hs hf hp]
  exact ⟨rfl, afterDispatch_published _ _ _ _, afterDispatch_reads _ _ _ _⟩

/-- Run `r1` with the queue down. -/
theorem publish_failure_surfaced_witness :
    (runR1.Status = StepRunStatusRUNNING ∨ runR1.Status = StepRunStatusPENDING) ∧
    (StepRunUpdateCancel (scripted (.ok (engineOf runR1)) (some queueDown)
        (storeUnchanged runR1)) tenantT1 runR1 World.init).2 =
      .error (.wrapped "could not add step queued task to task queue: " queueDown) ∧
    (StepRunUpdateCancel (scripted (.ok (engineOf runR1)) (some queueDown)
        (storeUnchanged runR1)) tenantT1 runR1 World.init).1.published =
      World.init.published ++ [(Queue.JOB_PROCESSING_QUEUE,
        StepRunCancelToTask (engineOf runR1) "CANCELLED_BY_USER" true)] ∧
    (StepRunUpdateCancel (scripted (.ok (engineOf runR1)) (some queueDown)
        (storeUnchanged runR1)) tenantT1 runR1 World.init).1.reads = World.init.reads :=
  ⟨Or.inl rfl, publish_failure_surfaced
    (scripted (.ok (engineOf runR1)) (some queueDown) (storeUnchanged runR1))
    tenantT1 runR1 World.init (engineOf runR1) queueDown (Or.inl rfl) rfl rfl⟩

/-- Claim C2, as stated, fails.  For the `RUNNING` run `r1` with the engine
repository down the handler returns having published no command. -/
theorem no_command_when_fetch_fails :
    runR1.Status = StepRunStatusRUNNING ∧
    (StepRunUpdateCancel (scripted (.error storeDown) none (storeUnchanged runR1))
        tenantT1 runR1 World.init).1.published = [] ∧
    (StepRunUpdateCancel (scripted (.error storeDown) none (storeUnchanged runR1))
        tenantT1 runR1 World.init).2 =
      .error (.wrapped "could not get step run for engine: " storeDown) :=
  ⟨rfl, rfl, rfl⟩

/-- Claim C2, amended.  For a `RUNNING` or `PENDING` run on which the engine
fetch succeeds, the handler calls `AddMessage` exactly once before returning,
whatever the publish and the poll reads answer: the one message goes to
`JOB_PROCESSING_QUEUE`, is built from the fetched engine record, and carries
reason "CANCELLED_BY_USER" with propagate-to-children set. -/
theorem one_command_when_fetch_succeeds (cfg : Config) (tenant : TenantModel)
    (stepRun : GetStepRunFull) (w : World) (engineStepRun : EngineStepRun)
    (hs : stepRun.Status = StepRunStatusRUNNING ∨ stepRun.Status = StepRunStatusPENDING)
    (hf : cfg.GetStepRunForEngine w tenant.ID (UUIDToStr stepRun.ID) = .ok engineStepRun) :
    ∃ task : Task,
      (StepRunUpdateCancel cfg tenant stepRun w).1.published =
        w.published ++ [(Queue.JOB_PROCESSING_QUEUE, task)] ∧
      task = StepRunCancelToTask engineStepRun "CANCELLED_BY_USER" true ∧
      task.CancelledReason = "CANCELLED_BY_USER" ∧
      task.PropagateToChildren = true := by
  refine ⟨StepRunCancelToTask engineStepRun "CANCELLED_BY_USER" true, ?_, rfl, rfl, rfl⟩
  cases hp : cfg.AddMessage (w.record (.GetStepRunForEngine tenant.ID (UUIDToStr stepRun.ID)))
      .JOB_PROCESSING_QUEUE (StepRunCancelToTask engineStepRun "CANCELLED_BY_USER" true) with
  | some err =>
    rw [handler_publish_failed cfg tenant stepRun w engineStepRun err hs hf hp]
    exact afterDispatch_published _ _ _ _
  | none =>
    rw [handler_polls cfg tenant stepRun w engineStepRun hs hf hp]
    simp only [pollLoop_published]
    exact afterDispatch_published _ _ _ _

/-- Run `r1`, cancelled in the store at 200 ms: one command is published. -/
theorem one_command_when_fetch_succeeds_witness :
    (runR1.Status = StepRunStatusRUNNING ∨ runR1.Status = StepRunStatusPENDING) ∧
    ∃ task : Task,
      (StepRunUpdateCancel (scripted (.ok (engineOf runR1)) none
          (storeChangesAt runR1 200 StepRunStatusCANCELLED)) tenantT1 runR1
          World.init).1.published = World.init.published ++ [(Queue.JOB_PROCESSING_QUEUE, task)] ∧
      task = StepRunCancelToTask (engineOf runR1) "CANCELLED_BY_USER" true ∧
      task.CancelledReason = "CANCELLED_BY_USER" ∧
      task.PropagateToChildren = true :=
  ⟨Or.inl rfl, one_command_when_fetch_succeeds
    (scripted (.ok (engineOf runR1)) none (storeChangesAt runR1 200 StepRunStatusCANCELLED))
    tenantT1 runR1 World.init (engineOf runR1) (Or.inl rfl) rfl⟩

/-- Among polls that do not fail, a poll showing another status is preceded by
a first such poll. -/
theorem exists_first_change (cfg : Config) (tenant : TenantModel)
    (stepRun : GetStepRunFull) (w : World) (engineStepRun : EngineStepRun)
    (k : Nat)
    (hok : ∀ j, j < k → ∃ s, pollRead cfg tenant stepRun engineStepRun w j = .ok s)
    (s1 : GetStepRunFull)
    (hr : pollRead cfg tenant stepRun engineStepRun w k = .ok s1)
    (hd : s1.Status ≠ stepRun.Status) :
    ∃ k0 s0, k0 ≤ k ∧
      pollRead cfg tenant stepRun engineStepRun w k0 = .ok s0 ∧
      s0.Status ≠ stepRun.Status ∧
      (∀ j, j < k0 → ∃ s, pollRead cfg tenant stepRun engineStepRun w j = .ok s ∧
        s.Status = stepRun.Status) := by
  classical
  have hex : ∃ j, ∃ s, pollRead cfg tenant stepRun engineStepRun w j = .ok s ∧
      s.Status ≠ stepRun.Status := ⟨k, s1, hr, hd⟩
  obtain ⟨s0, hr0, hd0⟩ := Nat.find_spec hex
  have hle : Nat.find hex ≤ k := Nat.find_min' hex ⟨s1, hr, hd⟩
  refine ⟨Nat.find hex, s0, hle, hr0, hd0, fun j hj => ?_⟩
  obtain ⟨s, hsj⟩ := hok j (lt_of_lt_of_le hj hle)
  refine ⟨s, hsj, ?_⟩
  by_contra hne
  exact Nat.find_min hex hj ⟨s, hsj, hne⟩

/-- The handler on a run whose poll `k0` is the first to show another status. -/
theorem handler_changed (cfg : Config) (tenant : TenantModel)
    (stepRun : GetStepRunFull) (w : World) (engineStepRun : EngineStepRun)
    (hs : stepRun.Status = StepRunStatusRUNNING ∨ stepRun.Status = StepRunStatusPENDING)
    (hf : cfg.GetStepRunForEngine w tenant.ID (UUIDToStr stepRun.ID) = .ok engineStepRun)
    (hp : cfg.AddMessage (w.record (.GetStepRunForEngine tenant.ID (UUIDToStr stepRun.ID)))
      .JOB_PROCESSING_QUEUE (StepRunCancelToTask engineStepRun "CANCELLED_BY_USER" true)
      = none)
    (k0 : Nat) (hk : k0 < 5)
    (hbefore : ∀ j, j < k0 → ∃ s, pollRead cfg tenant stepRun engineStepRun w j = .ok s ∧
      s.Status = stepRun.Status)
    (s0 : GetStepRunFull)
    (hr0 : pollRead cfg tenant stepRun engineStepRun w k0 = .ok s0)
    (hd0 : s0.Status ≠ stepRun.Status) :
    (StepRunUpdateCancel cfg tenant stepRun w).2 =
        .ok (.StepRunUpdateCancel200JSONResponse (ToStepRunFull s0)) ∧
      (StepRunUpdateCancel cfg tenant stepRun w).1.reads =
        w.reads ++ pollTimes w.clock (k0 + 1) := by
  rw [handler_polls cfg tenant stepRun w engineStepRun hs hf hp,
    pollLoop_changed cfg stepRun 5 k0 _ hk hbefore s0 hr0 hd0]
  refine ⟨rfl, ?_⟩
  simp only [reads_upto, afterDispatch_reads, afterDispatch_clock]

/-- The handler on a run whose five polls all show the baseline status. -/
theorem handler_unchanged (cfg : Config) (tenant : TenantModel)
    (stepRun : GetStepRunFull) (w : World) (engineStepRun : EngineStepRun)
    (hs : stepRun.Status = StepRunStatusRUNNING ∨ stepRun.Status = StepRunStatusPENDING)
    (hf : cfg.GetStepRunForEngine w tenant.ID (UUIDToStr stepRun.ID) = .ok engineStepRun)
    (hp : cfg.AddMessage (w.record (.GetStepRunForEngine tenant.ID (UUIDToStr stepRun.ID)))
      .JOB_PROCESSING_QUEUE (StepRunCancelToTask engineStepRun "CANCELLED_BY_USER" true)
      = none)
    (hsame : ∀ j, j < 5 → ∃ s, pollRead cfg tenant stepRun engineStepRun w j = .ok s ∧
      s.Status = stepRun.Status) :
    (StepRunUpdateCancel cfg tenant stepRun w).2 =
        .ok (.StepRunUpdateCancel200JSONResponse (ToStepRunFull stepRun)) ∧
      (StepRunUpdateCancel cfg tenant stepRun w).1.reads = w.reads ++ pollTimes w.clock 5 := by
  rw [handler_polls cfg tenant stepRun w engineStepRun hs hf hp,
    pollLoop_unchanged cfg stepRun 5 (afterDispatch tenant stepRun engineStepRun w) hsame]
  refine ⟨rfl, ?_⟩
  simp only [pollWorld_reads, afterDispatch_reads, afterDispatch_clock]

/-! ## The poll loop -/

/-- Claim C3.  For a `RUNNING` or `PENDING` run on which the engine fetch and
the publish succeed: if some poll `k` of the five shows a status other than the
baseline and no poll before it fails, the handler returns success with the
snapshot `s0` of the first poll `k0` that shows another status, so the returned
status is that new status, whatever it is, and poll `k0` is the last read
made. -/
theorem first_changed_snapshot_returned (cfg : Config) (tenant : TenantModel)
    (stepRun : GetStepRunFull) (w : World) (engineStepRun : EngineStepRun)
    (hs : stepRun.Status = StepRunStatusRUNNING ∨ stepRun.Status = StepRunStatusPENDING)
    (hf : cfg.GetStepRunForEngine w tenant.ID (UUIDToStr stepRun.ID) = .ok engineStepRun)
    (hp : cfg.AddMessage (w.record (.GetStepRunForEngine tenant.ID (UUIDToStr stepRun.ID)))
      .JOB_PROCESSING_QUEUE (StepRunCancelToTask engineStepRun "CANCELLED_BY_USER" true)
      = none)
    (k : Nat) (hk : k < 5)
    (hok : ∀ j, j < k → ∃ s, pollRead cfg tenant stepRun engineStepRun w j = .ok s)
    (s1 : GetStepRunFull)
    (hr : pollRead cfg tenant stepRun engineStepRun w k = .ok s1)
    (hd : s1.Status ≠ stepRun.Status) :
    ∃ k0 s0, k0 ≤ k ∧
      pollRead cfg tenant stepRun engineStepRun w k0 = .ok s0 ∧
      s0.Status ≠ stepRun.Status ∧
      (∀ j, j < k0 → ∃ s, pollRead cfg tenant stepRun engineStepRun w j = .ok s ∧
        s.Status = stepRun.Status) ∧
      (StepRunUpdateCancel cfg tenant stepRun w).2 =
        .ok (.StepRunUpdateCancel200JSONResponse (ToStepRunFull s0)) ∧
      (ToStepRunFull s0).Status = s0.Status ∧
      (StepRunUpdateCancel cfg tenant stepRun w).1.reads =
        w.reads ++ pollTimes w.clock (k0 + 1) := by
  obtain ⟨k0, s0, hle, hr0, hd0, hbefore⟩ :=
    exists_first_change cfg tenant stepRun w engineStepRun k hok s1 hr hd
  obtain ⟨h2, h1⟩ := handler_changed cfg tenant stepRun w engineStepRun hs hf hp k0
    (lt_of_le_of_lt hle hk) hbefore s0 hr0 hd0
  exact ⟨k0, s0, hle, hr0, hd0, hbefore, h2, rfl, h1⟩

/-- Scenario `r1`: the store shows `CANCELLED` from 200 ms on, the third poll
sees it and its snapshot is returned. -/
theorem first_changed_snapshot_returned_witness :
    pollRead cfgR1 tenantT1 runR1 (engineOf runR1) World.init 2 =
      .ok { runR1 with Status := StepRunStatusCANCELLED } ∧
    ∃ k0 s0, k0 ≤ 2 ∧
      pollRead cfgR1 tenantT1 runR1 (engineOf runR1) World.init k0 = .ok s0 ∧
      s0.Status ≠ runR1.Status ∧
      (∀ j, j < k0 → ∃ s, pollRead cfgR1 tenantT1 runR1 (engineOf runR1) World.init j = .ok s ∧
        s.Status = runR1.Status) ∧
      (StepRunUpdateCancel cfgR1 tenantT1 runR1 World.init).2 =
        .ok (.StepRunUpdateCancel200JSONResponse (ToStepRunFull s0)) ∧
      (ToStepRunFull s0).Status = s0.Status ∧
      (StepRunUpdateCancel cfgR1 tenantT1 runR1 World.init).1.reads =
        World.init.reads ++ pollTimes World.init.clock (k0 + 1) :=
  ⟨rfl, first_changed_snapshot_returned cfgR1 tenantT1 runR1 World.init (engineOf runR1)
    (Or.inl rfl) rfl rfl 2 (by decide)
    (fun j hj => by interval_cases j <;> exact ⟨_, rfl⟩)
    { runR1 with Status := StepRunStatusCANCELLED } rfl (by decide)⟩

/-- Claim C4.  For a `RUNNING` or `PENDING` run on which the engine fetch and
the publish succeed: if each of the five polls succeeds and shows the baseline
status, the handler makes exactly five reads (100 ms apart) and returns success
with the baseline snapshot it was given. -/
theorem baseline_returned_after_five_polls (cfg : Config) (tenant : TenantModel)
    (stepRun : GetStepRunFull) (w : World) (engineStepRun : EngineStepRun)
    (hs : stepRun.Status = StepRunStatusRUNNING ∨ stepRun.Status = StepRunStatusPENDING)
    (hf : cfg.GetStepRunForEngine w tenant.ID (UUIDToStr stepRun.ID) = .ok engineStepRun)
    (hp : cfg.AddMessage (w.record (.GetStepRunForEngine tenant.ID (UUIDToStr stepRun.ID)))
      .JOB_PROCESSING_QUEUE (StepRunCancelToTask engineStepRun "CANCELLED_BY_USER" true)
      = none)
    (hsame : ∀ j, j < 5 → ∃ s, pollRead cfg tenant stepRun engineStepRun w j = .ok s ∧
      s.Status = stepRun.Status) :
    (StepRunUpdateCancel cfg tenant stepRun w).2 =
        .ok (.StepRunUpdateCancel200JSONResponse (ToStepRunFull stepRun)) ∧
      (StepRunUpdateCancel cfg tenant stepRun w).1.reads = w.reads ++ pollTimes w.clock 5 ∧
      (StepRunUpdateCancel cfg tenant stepRun w).1.reads.length = w.reads.length + 5 := by
  obtain ⟨h2, h1⟩ := handler_unchanged cfg tenant stepRun w engineStepRun hs hf hp hsame
  exact ⟨h2, h1, by rw [h1, List.length_append, pollTimes_length]⟩

/-- Scenario `r3`: a `PENDING` run that never transitions is returned still
`PENDING` after exactly five polls. -/
theorem baseline_returned_after_five_polls_witness :
    (∀ j, j < 5 → ∃ s, pollRead cfgR3 tenantT1 runR3 (engineOf runR3) World.init j = .ok s ∧
      s.Status = runR3.Status) ∧
    (StepRunUpdateCancel cfgR3 tenantT1 runR3 World.init).2 =
      .ok (.StepRunUpdateCancel200JSONResponse (ToStepRunFull runR3)) ∧
    (StepRunUpdateCancel cfgR3 tenantT1 runR3 World.init).1.reads =
      World.init.reads ++ pollTimes World.init.clock 5 ∧
    (StepRunUpdateCancel cfgR3 tenantT1 runR3 World.init).1.reads.length =
      World.init.reads.length + 5 :=
  ⟨fun j hj => by interval_cases j <;> exact ⟨_, rfl, rfl⟩,
    baseline_returned_after_five_polls cfgR3 tenantT1 runR3 World.init (engineOf runR3)
      (Or.inr rfl) rfl rfl (fun j hj => by interval_cases j <;> exact ⟨_, rfl, rfl⟩)⟩

/-- Claim C5.  For a `RUNNING` or `PENDING` run on which the engine fetch and
the publish succeed: if attempt `k` (counted from 1, at most 5) of the poll
fails after attempts that all showed the baseline status, the handler returns
the store error wrapped in "could not get step run: " and no response, and
attempt `k` is the last read made. -/
theorem poll_failure_surfaced (cfg : Config) (tenant : TenantModel)
    (stepRun : GetStepRunFull) (w : World) (engineStepRun : EngineStepRun)
    (hs : stepRun.Status = StepRunStatusRUNNING ∨ stepRun.Status = StepRunStatusPENDING)
    (hf : cfg.GetStepRunForEngine w tenant.ID (UUIDToStr stepRun.ID) = .ok engineStepRun)
    (hp : cfg.AddMessage (w.record (.GetStepRunForEngine tenant.ID (UUIDToStr stepRun.ID)))
      .JOB_PROCESSING_QUEUE (StepRunCancelToTask engineStepRun "CANCELLED_BY_USER" true)
      = none)
    (k : Nat) (hk1 : 1 ≤ k) (hk5 : k ≤ 5)
    (hsame : ∀ j, j + 1 < k → ∃ s, pollRead cfg tenant stepRun engineStepRun w j = .ok s ∧
      s.Status = stepRun.Status)
    (err : GoError)
    (hr : pollRead cfg tenant stepRun engineStepRun w (k - 1) = .error err) :
    (StepRunUpdateCancel cfg tenant stepRun w).2 =
        .error (.wrapped "could not get step run: " err) ∧
      (StepRunUpdateCancel cfg tenant stepRun w).1.reads = w.reads ++ pollTimes w.clock k ∧
      (StepRunUpdateCancel cfg tenant stepRun w).1.reads.length = w.reads.length + k := by
  have hloop := pollLoop_failed cfg stepRun 5 (k - 1)
    (afterDispatch tenant stepRun engineStepRun w) (by omega)
    (fun j hj => hsame j (by omega)) err hr
  have hreads : (StepRunUpdateCancel cfg tenant stepRun w).1.reads =
      w.reads ++ pollTimes w.clock k := by
    rw [handler_polls cfg tenant stepRun w engineStepRun hs hf hp, hloop]
    simp only [reads_upto, afterDispatch_reads, afterDispatch_clock]
    rw [Nat.sub_add_cancel hk1]
  refine ⟨?_, hreads, ?_⟩
  · rw [handler_polls cfg tenant stepRun w engineStepRun hs hf hp, hloop]
    rfl
  · rw [hreads, List.length_append, pollTimes_length]

/-- Run `r1` with the store failing from 200 ms on: the third attempt fails
and its error is returned. -/
theorem poll_failure_surfaced_witness :
    pollRead cfgStoreFails tenantT1 runR1 (engineOf runR1) World.init (3 - 1) =
      .error storeDown ∧
    (StepRunUpdateCancel cfgStoreFails tenantT1 runR1 World.init).2 =
      .error (.wrapped "could not get step run: " storeDown) ∧
    (StepRunUpdateCancel cfgStoreFails tenantT1 runR1 World.init).1.reads =
      World.init.reads ++ pollTimes World.init.clock 3 ∧
    (StepRunUpdateCancel cfgStoreFails tenantT1 runR1 World.init).1.reads.length =
      World.init.reads.length + 3 :=
  ⟨rfl, poll_failure_surfaced cfgStoreFails tenantT1 runR1 World.init (engineOf runR1)
    (Or.inl rfl) rfl rfl 3 (by decide) (by decide)
    (fun j hj => by
      have hj2 : j < 2 := by omega
      interval_cases j <;> exact ⟨_, rfl, rfl⟩)
    storeDown rfl⟩

/-- Claim C8, as stated, fails.  Run `r1` stays `RUNNING` while its metadata is
rewritten: all five reads succeed, the last read (at 400 ms) returns the
rewritten snapshot, yet the response carries the baseline snapshot. -/
theorem unchanged_status_returns_baseline_not_last_read :
    (StepRunUpdateCancel cfgTouched tenantT1 runR1 World.init).1.reads =
      [0, 100, 200, 300, 400] ∧
    pollRead cfgTouched tenantT1 runR1 (engineOf runR1) World.init 4 =
      .ok { runR1 with Metadata := "m1" } ∧
    (StepRunUpdateCancel cfgTouched tenantT1 runR1 World.init).2 =
      .ok (.StepRunUpdateCancel200JSONResponse (ToStepRunFull runR1)) ∧
    ToStepRunFull runR1 ≠ ToStepRunFull { runR1 with Metadata := "m1" } :=
  ⟨rfl, rfl, rfl, by decide⟩

/-- Claim C8, amended.  For a `RUNNING` or `PENDING` run on which the engine
fetch and the publish succeed and every poll read that is made succeeds (poll
`j` is made exactly when all polls before it succeeded and showed the baseline
status; nothing is asked of polls that are not made), let `sLast` be the
snapshot of the last read made (read `n`, counted from 1).  If `sLast` shows a
status other than the baseline, the response carries `sLast`.  Otherwise all
five reads showed the baseline status and the response carries the baseline
snapshot the handler was given, which has the status of `sLast`. -/
theorem last_read_returned_only_on_change (cfg : Config) (tenant : TenantModel)
    (stepRun : GetStepRunFull) (w : World) (engineStepRun : EngineStepRun)
    (hs : stepRun.Status = StepRunStatusRUNNING ∨ stepRun.Status = StepRunStatusPENDING)
    (hf : cfg.GetStepRunForEngine w tenant.ID (UUIDToStr stepRun.ID) = .ok engineStepRun)
    (hp : cfg.AddMessage (w.record (.GetStepRunForEngine tenant.ID (UUIDToStr stepRun.ID)))
      .JOB_PROCESSING_QUEUE (StepRunCancelToTask engineStepRun "CANCELLED_BY_USER" true)
      = none)
    (hmade : ∀ j, j < 5 →
      (∀ i, i < j → ∃ s, pollRead cfg tenant stepRun engineStepRun w i = .ok s ∧
        s.Status = stepRun.Status) →
      ∃ s, pollRead cfg tenant stepRun engineStepRun w j = .ok s) :
    ∃ n sLast, 1 ≤ n ∧ n ≤ 5 ∧
      (StepRunUpdateCancel cfg tenant stepRun w).1.reads = w.reads ++ pollTimes w.clock n ∧
      pollRead cfg tenant stepRun engineStepRun w (n - 1) = .ok sLast ∧
      ((sLast.Status ≠ stepRun.Status ∧
          (StepRunUpdateCancel cfg tenant stepRun w).2 =
            .ok (.StepRunUpdateCancel200JSONResponse (ToStepRunFull sLast))) ∨
        (sLast.Status = stepRun.Status ∧ n = 5 ∧
          (StepRunUpdateCancel cfg tenant stepRun w).2 =
            .ok (.StepRunUpdateCancel200JSONResponse (ToStepRunFull stepRun)) ∧
          (ToStepRunFull stepRun).Status = sLast.Status)) := by
  by_cases hex : ∃ k, k < 5 ∧
      (∀ i, i < k → ∃ s, pollRead cfg tenant stepRun engineStepRun w i = .ok s ∧
        s.Status = stepRun.Status) ∧
      ∃ s, pollRead cfg tenant stepRun engineStepRun w k = .ok s ∧ s.Status ≠ stepRun.Status
  · obtain ⟨k0, hk, hbefore, s0, hr0, hd0⟩ := hex
    obtain ⟨h2, h1⟩ := handler_changed cfg tenant stepRun w engineStepRun hs hf hp k0
      hk hbefore s0 hr0 hd0
    exact ⟨k0 + 1, s0, by omega, by omega, h1, by simpa using hr0, Or.inl ⟨hd0, h2⟩⟩
  · have hsame : ∀ j, j < 5 → ∃ s, pollRead cfg tenant stepRun engineStepRun w j = .ok s ∧
        s.Status = stepRun.Status := by
      intro j
      induction j using Nat.strong_induction_on with
      | _ j ih =>
        intro hj
        have hprev : ∀ i, i < j → ∃ s,
            pollRead cfg tenant stepRun engineStepRun w i = .ok s ∧
              s.Status = stepRun.Status :=
          fun i hi => ih i hi (lt_trans hi hj)
        obtain ⟨s, hsj⟩ := hmade j hj hprev
        refine ⟨s, hsj, ?_⟩
        by_contra hne
        exact hex ⟨j, hj, hprev, s, hsj, hne⟩
    obtain ⟨h2, h1⟩ := handler_unchanged cfg tenant stepRun w engineStepRun hs hf hp hsame
    obtain ⟨s4, hr4, hst4⟩ := hsame 4 (by decide)
    exact ⟨5, s4, by decide, le_refl 5, h1, hr4, Or.inr ⟨hst4, rfl, h2, hst4.symm⟩⟩

/-- Run `r1` shown as `CANCELLED` by the first poll, with the store down from
100 ms on: the one read made succeeds, the reads never made would fail, and
the response carries the snapshot of that one read. -/
theorem last_read_returned_only_on_change_witness :
    pollRead cfgChangedThenFails tenantT1 runR1 (engineOf runR1) World.init 1 =
      .error storeDown ∧
    ∃ n sLast, 1 ≤ n ∧ n ≤ 5 ∧
      (StepRunUpdateCancel cfgChangedThenFails tenantT1 runR1 World.init).1.reads =
        World.init.reads ++ pollTimes World.init.clock n ∧
      pollRead cfgChangedThenFails tenantT1 runR1 (engineOf runR1) World.init (n - 1) =
        .ok sLast ∧
      ((sLast.Status ≠ runR1.Status ∧
          (StepRunUpdateCancel cfgChangedThenFails tenantT1 runR1 World.init).2 =
            .ok (.StepRunUpdateCancel200JSONResponse (ToStepRunFull sLast))) ∨
        (sLast.Status = runR1.Status ∧ n = 5 ∧
          (StepRunUpdateCancel cfgChangedThenFails tenantT1 runR1 World.init).2 =
            .ok (.StepRunUpdateCancel200JSONResponse (ToStepRunFull runR1)) ∧
          (ToStepRunFull runR1).Status = sLast.Status)) :=
  ⟨rfl, last_read_returned_only_on_change cfgChangedThenFails tenantT1 runR1 World.init
    (engineOf runR1) (Or.inl rfl) rfl rfl (fun j _ hprev => by
      rcases Nat.eq_zero_or_pos j with h0 | hpos
      · subst h0
        exact ⟨_, rfl⟩
      · obtain ⟨s, hr, hst⟩ := hprev 0 hpos
        have h0 : pollRead cfgChangedThenFails tenantT1 runR1 (engineOf runR1) World.init 0 =
            .ok { runR1 with Status := StepRunStatusCANCELLED } := rfl
        rw [h0] at hr
        cases hr
        exact absurd hst (by decide))⟩

/-! ## Timing of the polls -/

/-- Claim C10, as stated, fails.  In scenario `r1` (store `CANCELLED` from
200 ms on) the polls are made at 0, 100 and 200 ms: the second poll is made at
100 ms and still reads `RUNNING`, and the change is seen by the third poll. -/
theorem second_poll_is_at_100ms :
    (StepRunUpdateCancel cfgR1 tenantT1 runR1 World.init).1.reads = [0, 100, 200] ∧
    (StepRunUpdateCancel cfgR1 tenantT1 runR1 World.init).1.reads[1]? = some 100 ∧
    pollRead cfgR1 tenantT1 runR1 (engineOf runR1) World.init 1 = .ok runR1 ∧
    runR1.Status = StepRunStatusRUNNING ∧
    (StepRunUpdateCancel cfgR1 tenantT1 runR1 World.init).1.reads.length = 3 :=
  ⟨rfl, rfl, rfl, rfl, rfl⟩

/-- Claim C10, amended.  On the logical clock (only sleeps take time, 100 ms
each), for a `RUNNING` run that the store shows as `RUNNING` before 200 ms
after the call and as `CANCELLED` from then on: the handler polls at 0, 100 and
200 ms after the call, the second poll still reads `RUNNING`, the third poll
sees the change, and the returned status is `CANCELLED`. -/
theorem change_at_200ms_seen_by_third_poll (cfg : Config) (tenant : TenantModel)
    (stepRun : GetStepRunFull) (w : World) (engineStepRun : EngineStepRun)
    (hs : stepRun.Status = StepRunStatusRUNNING)
    (hf : cfg.GetStepRunForEngine w tenant.ID (UUIDToStr stepRun.ID) = .ok engineStepRun)
    (hp : cfg.AddMessage (w.record (.GetStepRunForEngine tenant.ID (UUIDToStr stepRun.ID)))
      .JOB_PROCESSING_QUEUE (StepRunCancelToTask engineStepRun "CANCELLED_BY_USER" true)
      = none)
    (hstore : ∀ w2 : World, ∃ s, cfg.GetStepRunById w2 (UUIDToStr stepRun.ID) = .ok s ∧
      s.Status = if w2.clock < w.clock + 200 then StepRunStatusRUNNING
        else StepRunStatusCANCELLED) :
    (StepRunUpdateCancel cfg tenant stepRun w).1.reads =
        w.reads ++ [w.clock, w.clock + 100, w.clock + 200] ∧
      (∃ s, pollRead cfg tenant stepRun engineStepRun w 1 = .ok s ∧
        s.Status = StepRunStatusRUNNING) ∧
      ∃ s, pollRead cfg tenant stepRun engineStepRun w 2 = .ok s ∧
        (StepRunUpdateCancel cfg tenant stepRun w).2 =
          .ok (.StepRunUpdateCancel200JSONResponse (ToStepRunFull s)) ∧
        (ToStepRunFull s).Status = StepRunStatusCANCELLED := by
  have hread : ∀ j, ∃ s, pollRead cfg tenant stepRun engineStepRun w j = .ok s ∧
      s.Status = if j < 2 then StepRunStatusRUNNING else StepRunStatusCANCELLED := by
    intro j
    obtain ⟨s, h1, h2⟩ := hstore (pollWorld (UUIDToStr stepRun.ID) j
      (afterDispatch tenant stepRun engineStepRun w))
    refine ⟨s, h1, ?_⟩
    rw [h2, pollWorld_clock, afterDispatch_clock]
    by_cases hj : j < 2
    · rw [if_pos hj, if_pos (by omega)]
    · rw [if_neg hj, if_neg (by omega)]
  obtain ⟨s2, hr2, hst2⟩ := hread 2
  obtain ⟨s1, hr1, hst1⟩ := hread 1
  have hd : s2.Status ≠ stepRun.Status := by
    rw [hst2, hs]; decide
  have hbefore : ∀ j, j < 2 → ∃ s, pollRead cfg tenant stepRun engineStepRun w j = .ok s ∧
      s.Status = stepRun.Status := by
    intro j hj
    obtain ⟨s, h1, h2⟩ := hread j
    exact ⟨s, h1, by rw [h2, if_pos hj, hs]⟩
  obtain ⟨h2, h1⟩ := handler_changed cfg tenant stepRun w engineStepRun (Or.inl hs) hf hp 2
    (by decide) hbefore s2 hr2 hd
  refine ⟨?_, ⟨s1, hr1, by simpa using hst1⟩, s2, hr2, h2, by simpa [ToStepRunFull] using hst2⟩
  rw [h1]
  simp [pollTimes, List.range_succ]

/-- Scenario `r1` on the logical clock. -/
theorem change_at_200ms_seen_by_third_poll_witness :
    runR1.Status = StepRunStatusRUNNING ∧
    (StepRunUpdateCancel cfgR1 tenantT1 runR1 World.init).1.reads =
        World.init.reads ++ [World.init.clock, World.init.clock + 100, World.init.clock + 200] ∧
      (∃ s, pollRead cfgR1 tenantT1 runR1 (engineOf runR1) World.init 1 = .ok s ∧
        s.Status = StepRunStatusRUNNING) ∧
      ∃ s, pollRead cfgR1 tenantT1 runR1 (engineOf runR1) World.init 2 = .ok s ∧
        (StepRunUpdateCancel cfgR1 tenantT1 runR1 World.init).2 =
          .ok (.StepRunUpdateCancel200JSONResponse (ToStepRunFull s)) ∧
        (ToStepRunFull s).Status = StepRunStatusCANCELLED :=
  ⟨rfl, change_at_200ms_seen_by_third_poll cfgR1 tenantT1 runR1 World.init (engineOf runR1)
    rfl rfl rfl (fun w2 => by
      by_cases h : w2.clock < World.init.clock + 200
      · exact ⟨runR1, by simp [cfgR1, scripted, storeChangesAt, World.init] at h ⊢; simp [h],
          by rw [if_pos h]; rfl⟩
      · exact ⟨{ runR1 with Status := StepRunStatusCANCELLED },
          by simp [cfgR1, scripted, storeChangesAt, World.init] at h ⊢; omega,
          by rw [if_neg h]⟩)⟩

end StepRuns
